import Mathlib

/-!
Verification of the Globalize lead-capture backend (src/main.py, src/schemas.py).

The embedding models the HTTP handlers as pure functions over an explicit
environment (the consumed environment variables), an abstract SMTP transport
outcome, and an explicit database state.  External components that are not
part of the repository sources (the database module, the SMTP library, the
pydantic EmailStr validator) are modelled from the specification, as noted
in the doc comment of each such definition.
-/

namespace Globalize

/-- The environment variables consumed by main.py, each possibly unset. -/
structure Env where
  smtp_host : Option String
  smtp_port : Option String
  smtp_user : Option String
  smtp_password : Option String
  sender_email : Option String
  frontend_url : Option String
  database_url : Option String
  database_name : Option String
deriving Repr, DecidableEq

/-- Python truthiness test used by `if not x` on an optional string:
None and the empty string are falsy. -/
def pyFalsy : Option String → Bool
  | none => true
  | some s => s.isEmpty

/-- Splitting a character list on a separator character, keeping empty
pieces, as str.split does for a one-character separator. -/
def splitOnChar (c : Char) : List Char → List (List Char)
  | [] => [[]]
  | x :: xs =>
      let r := splitOnChar c xs
      if x = c then [] :: r
      else
        match r with
        | [] => [[x]]
        | y :: ys => (x :: y) :: ys

/-- The Python slice s[:n]: the first n characters of the string. -/
def pyTruncate (n : Nat) (s : String) : String :=
  String.mk (s.toList.take n)

/-- The Python int() conversion applied to a port string, for the decimal
digit strings a port takes: the parsed number, or failure (a raised
ValueError) when the string is not a nonempty digit string. -/
def pyInt? (s : String) : Option Nat :=
  let l := s.toList
  if l.isEmpty then none
  else if l.all (fun c => c.isDigit) then
    some (l.foldl (fun n c => 10 * n + (c.toNat - 48)) 0)
  else none

/-- Modelled from the spec: pydantic EmailStr validation is performed by a
third-party library that is not part of the repository sources; the spec
requires that email "must parse as a syntactically valid email address".
We model a basic syntactic check: exactly one at-sign separating a nonempty
local part from a domain that has at least two nonempty dot-separated labels. -/
def emailValid (s : String) : Bool :=
  match splitOnChar '@' s.toList with
  | [lp, dom] =>
      !lp.isEmpty && !dom.isEmpty &&
      (let parts := splitOnChar '.' dom
       decide (2 ≤ parts.length) && parts.all (fun p => !p.isEmpty))
  | _ => false

/-- The request body model LeadRequest of main.py (all fields after the
required name and email are optional and default to None). -/
structure LeadRequest where
  name : String
  email : String
  company : Option String := none
  phone : Option String := none
  services : Option (List String) := none
  budget : Option String := none
  message : Option String := none
deriving Repr, DecidableEq

/-- The Lead collection schema of schemas.py: the same required name and
email and the same optional fields. -/
structure Lead where
  name : String
  email : String
  company : Option String := none
  phone : Option String := none
  services : Option (List String) := none
  budget : Option String := none
  message : Option String := none
deriving Repr, DecidableEq

/-- An inbound JSON payload before request validation: every field may be
missing. -/
structure RawPayload where
  name : Option String := none
  email : Option String := none
  company : Option String := none
  phone : Option String := none
  services : Option (List String) := none
  budget : Option String := none
  message : Option String := none
deriving Repr, DecidableEq

/-- The framework validation of the request body against LeadRequest:
name and email are required, email must be a valid address, the remaining
fields default to None when missing. -/
def validateLeadRequest (p : RawPayload) : Option LeadRequest :=
  match p.name, p.email with
  | some n, some e =>
      if emailValid e then
        some { name := n, email := e, company := p.company, phone := p.phone,
               services := p.services, budget := p.budget, message := p.message }
      else none
  | _, _ => none

/-- The revalidation Lead(**lead.model_dump()) in create_lead: field for
field identical constraints, so it is total on an already validated request. -/
def toLead (lr : LeadRequest) : Lead :=
  { name := lr.name, email := lr.email, company := lr.company,
    phone := lr.phone, services := lr.services, budget := lr.budget,
    message := lr.message }

/-- Modelled from the spec: the database module is not part of the
repository sources.  The spec states that the persistence layer assigns a
generated identifier at creation time and that a persistence failure is
surfaced by the submission handler as a client error.  The state is the list
of persisted records with their collection and identifier, a counter for
identifier generation, and a flag describing whether the next insert fails. -/
structure DB where
  docs : List (String × String × Lead)
  nextId : Nat
  insertFails : Bool
deriving Repr, DecidableEq

/-- Modelled from the spec: create_document(collection, model) persists the
record and returns the generated, non-null identifier, or raises on a
persistence failure. -/
def create_document (collection : String) (doc : Lead) (db : DB) :
    Except String (String × DB) :=
  if db.insertFails then Except.error ("database insert failed")
  else
    let id := "doc-" ++ toString db.nextId
    Except.ok (id, { db with docs := db.docs ++ [(collection, id, doc)],
                             nextId := db.nextId + 1 })

/-- The sender address resolution os.getenv("SENDER_EMAIL", smtp_user):
the SENDER_EMAIL variable when set, otherwise the SMTP_USER variable. -/
def senderEmailResolved (env : Env) : Option String :=
  env.sender_email.orElse (fun _ => env.smtp_user)

/-- The configuration check of _maybe_send_lead_email:
`if not smtp_host or not smtp_port or not sender_email`. -/
def smtpConfigured (env : Env) : Bool :=
  !(pyFalsy env.smtp_host) && !(pyFalsy env.smtp_port) &&
  !(pyFalsy (senderEmailResolved env))

/-- The lead-magnet URL: os.getenv("FRONTEND_URL", "http://localhost:3000")
plus the fixed path. -/
def leadMagnetUrl (env : Env) : String :=
  (env.frontend_url.getD ("http://localhost:3000")) ++ "/lead-magnet"

/-- The MIMEText message assembled by _maybe_send_lead_email. -/
structure EmailMsg where
  subject : String
  from_addr : String
  to_addr : String
  body : String
deriving Repr, DecidableEq

/-- The opening lines of the body template, up to the interpolated name. -/
def bodyHead : String := "\nHi "

/-- The body template between the interpolated name and the interpolated
lead-magnet URL. -/
def bodyMid : String :=
  ",\n\nThanks for reaching out to Globalize. Here is your lead magnet:\n"

/-- The closing lines of the body template, after the interpolated URL. -/
def bodyTail : String :=
  "\n\nWe\x27ll be in touch shortly to learn more about your goals.\n\n— Globalize Team\n"

/-- The fixed-template message constructed by _maybe_send_lead_email for a
given recipient and display name. -/
def buildLeadEmail (env : Env) (recipient nm : String) : EmailMsg :=
  { subject := "Your Globalize Social Media Growth Toolkit"
  , from_addr := (senderEmailResolved env).getD ("")
  , to_addr := recipient
  , body := bodyHead ++ nm ++ bodyMid ++ leadMagnetUrl env ++ bodyTail }

/-- The SMTP session the code performs when configured: the connection
parameters, the TLS upgrade, the optional login (only when a password is
configured), and the single sendmail call. -/
structure SmtpSession where
  host : String
  port : Nat
  starttls_called : Bool
  login_call : Option (Option String × String)
  sendmail_from : String
  sendmail_to : List String
  sendmail_msg : EmailMsg
deriving Repr, DecidableEq

/-- The SMTP interaction attempted by _maybe_send_lead_email: none when the
configuration check short-circuits, and none when int(smtp_port) raises
before any connection is opened; otherwise the session description. -/
def smtpAttempt (env : Env) (recipient nm : String) : Option SmtpSession :=
  if smtpConfigured env then
    match pyInt? (env.smtp_port.getD ("")) with
    | none => none
    | some p =>
        some { host := env.smtp_host.getD ("")
             , port := p
             , starttls_called := true
             , login_call :=
                 if pyFalsy env.smtp_password then none
                 else some (env.smtp_user, env.smtp_password.getD (""))
             , sendmail_from := (senderEmailResolved env).getD ("")
             , sendmail_to := [recipient]
             , sendmail_msg := buildLeadEmail env recipient nm }
  else none

/-- The dictionary returned by _maybe_send_lead_email. -/
structure EmailResult where
  sent : Bool
  message : String
deriving Repr, DecidableEq

/-- The outcome of the with-block (connect, TLS upgrade, optional login,
send): an abstract transport oracle, where an error carries str(e). -/
abbrev SmtpOutcome := Except String Unit

/-- The body of _maybe_send_lead_email: short-circuit when not configured,
otherwise attempt the send inside a try/except that converts any exception
text into the truncated failure message. -/
def maybeSendLeadEmail (env : Env) (transport : SmtpOutcome)
    (_recipient _nm : String) : EmailResult :=
  if !(smtpConfigured env) then
    { sent := false, message := "SMTP not configured; skipped sending" }
  else
    match pyInt? (env.smtp_port.getD ("")) with
    | none =>
        { sent := false
        , message := "Email failed: " ++
            pyTruncate 200 ("invalid literal for int with base 10: " ++
              env.smtp_port.getD ("")) }
    | some _ =>
        match transport with
        | Except.ok _ => { sent := true, message := "Confirmation email sent" }
        | Except.error e =>
            { sent := false, message := "Email failed: " ++ pyTruncate 200 e }

/-- Observable side effects of the submission handler, in order. -/
inductive Event where
  | persistCalled (collection : String)
  | persisted (collection : String) (id : String)
  | emailAttempted (recipient : String)
deriving Repr, DecidableEq

/-- The possible responses of POST /api/leads: the success body or an
HTTP error with its status code and detail. -/
inductive LeadResponse where
  | ok (id : String) (email_sent : Bool) (email_message : String)
  | clientError (status : Nat) (detail : String)
deriving Repr, DecidableEq

/-- The full outcome of a POST /api/leads request: the response, the
database state after the request, and the ordered side-effect trace. -/
structure HandlerOutcome where
  response : LeadResponse
  db : DB
  trace : List Event
deriving Repr, DecidableEq

/-- The create_lead handler: framework validation of the body (a 422 client
error on failure, before the handler body runs), then the handler try-block:
revalidate into Lead, persist via create_document (a persistence exception
becomes a 400 client error), then the best-effort email attempt, then the
composite success response. -/
def create_lead (env : Env) (transport : SmtpOutcome) (db : DB)
    (p : RawPayload) : HandlerOutcome :=
  match validateLeadRequest p with
  | none =>
      { response := LeadResponse.clientError 422 ("request validation failed")
      , db := db, trace := [] }
  | some lr =>
      let lead_model := toLead lr
      match create_document ("lead") lead_model db with
      | Except.error e =>
          { response := LeadResponse.clientError 400 e
          , db := db
          , trace := [Event.persistCalled ("lead")] }
      | Except.ok (lead_id, db2) =>
          let email_result := maybeSendLeadEmail env transport lr.email lr.name
          { response :=
              LeadResponse.ok lead_id email_result.sent email_result.message
          , db := db2
          , trace := [Event.persistCalled ("lead"),
                      Event.persisted ("lead") lead_id,
                      Event.emailAttempted lr.email] }

/-- The message objects returned by GET / and GET /api/hello. -/
structure MsgResponse where
  message : String
deriving Repr, DecidableEq

/-- GET / : a constant message; the database state is untouched. -/
def read_root (db : DB) : MsgResponse × DB :=
  ({ message := "Globalize.co.uk backend is running" }, db)

/-- GET /api/hello : a constant message; the database state is untouched. -/
def hello (db : DB) : MsgResponse × DB :=
  ({ message := "Hello from the backend API!" }, db)

instance {ε α : Type} [DecidableEq ε] [DecidableEq α] :
    DecidableEq (Except ε α) := fun a b =>
  match a, b with
  | Except.ok x, Except.ok y =>
      if h : x = y then isTrue (by simp [h]) else isFalse (by simp [h])
  | Except.error x, Except.error y =>
      if h : x = y then isTrue (by simp [h]) else isFalse (by simp [h])
  | Except.ok _, Except.error _ => isFalse (by simp)
  | Except.error _, Except.ok _ => isFalse (by simp)

/-- The live client handle `db` of the database module as observed by the
diagnostic handler: whether it has a name attribute, and the outcome of its
list_collection_names call (an error carries str(e)). -/
structure DbHandle where
  attrName : Option String
  collectionsResult : Except String (List String)
deriving Repr, DecidableEq

/-- The outcome of `from database import db` inside the diagnostic handler:
an ImportError, any other exception (carrying str(e)), or success with a
handle that may be None. -/
inductive DbImport where
  | importErr
  | otherErr (msg : String)
  | imported (handle : Option DbHandle)
deriving Repr, DecidableEq

/-- The diagnostic JSON object returned by GET /test.  The database_url and
database_name fields are unconditionally overwritten from the environment
just before returning, so their final values are always strings. -/
structure DiagResponse where
  backend : String
  database : String
  database_url : String
  database_name : String
  connection_status : String
  collections : List String
deriving Repr, DecidableEq

/-- The test_database handler for GET /test.  The Except layer represents an
exception escaping the handler; every failure of the import, of the handle,
or of the collection listing is caught by the try/except structure of the
source, so every branch returns Except.ok. -/
def test_database (imp : DbImport) (env : Env) : Except String DiagResponse :=
  let base : DiagResponse :=
    { backend := "✅ Running"
    , database := "❌ Not Available"
    , database_url := ""
    , database_name := ""
    , connection_status := "Not Connected"
    , collections := [] }
  let afterTry : DiagResponse :=
    match imp with
    | DbImport.importErr =>
        { base with database :=
            "❌ Database module not found (run enable-database first)" }
    | DbImport.otherErr e =>
        { base with database := "❌ Error: " ++ pyTruncate 50 e }
    | DbImport.imported none =>
        { base with database := "⚠️  Available but not initialized" }
    | DbImport.imported (some h) =>
        let r1 : DiagResponse :=
          { base with
            database := "✅ Available",
            database_url := "✅ Configured",
            database_name := h.attrName.getD ("✅ Connected"),
            connection_status := "Connected" }
        match h.collectionsResult with
        | Except.ok cols =>
            { r1 with
              collections := cols.take 10,
              database := "✅ Connected & Working" }
        | Except.error e =>
            { r1 with database := "⚠️  Connected but Error: " ++ pyTruncate 50 e }
  Except.ok
    { afterTry with
      database_url :=
        if pyFalsy env.database_url then "❌ Not Set" else "✅ Set",
      database_name :=
        if pyFalsy env.database_name then "❌ Not Set" else "✅ Set" }

/-! ## Concrete inputs used by witnesses and counterexamples -/

/-- An environment with nothing set. -/
def envEmpty : Env := ⟨none, none, none, none, none, none, none, none⟩

/-- A fully configured SMTP environment with a password and no explicit
SENDER_EMAIL, so the sender falls back to SMTP_USER. -/
def envSmtpFull : Env :=
  { smtp_host := some "smtp.example.com"
  , smtp_port := some "587"
  , smtp_user := some "team@globalize.co.uk"
  , smtp_password := some "hunter2"
  , sender_email := none
  , frontend_url := none
  , database_url := none
  , database_name := none }

/-- An empty database state whose inserts succeed. -/
def dbEmpty : DB := ⟨[], 0, false⟩

/-- The end-to-end example payload of the spec. -/
def payloadJane : RawPayload :=
  { name := some "Jane Doe", email := some "jane@example.com" }

/-- A payload whose name is present but empty, with a valid email. -/
def payloadEmptyName : RawPayload :=
  { name := some "", email := some "jane@example.com" }

/-- A payload with a missing name. -/
def payloadNoName : RawPayload := { email := some "jane@example.com" }

/-- The transport oracle for a successful SMTP interaction. -/
def tOk : SmtpOutcome := Except.ok ()

/-- The transport oracle for a failing SMTP interaction. -/
def tErr : SmtpOutcome := Except.error ("SMTP connect failed")

/-- The lead record produced by the example payload of the spec. -/
def leadJane : Lead := { name := "Jane Doe", email := "jane@example.com" }

/-- The lead record produced by the empty-name payload. -/
def leadEmptyName : Lead := { name := "", email := "jane@example.com" }

/-- A client handle whose collection listing returns twelve names. -/
def handle12 : DbHandle :=
  { attrName := some "globalize"
  , collectionsResult := Except.ok
      ["c01", "c02", "c03", "c04", "c05", "c06",
       "c07", "c08", "c09", "c10", "c11", "c12"] }

/-! ## Theorems -/

/-- A request accepted by validation carries a valid email address. -/
theorem validate_email_valid {p : RawPayload} {lr : LeadRequest}
    (h : validateLeadRequest p = some lr) : emailValid lr.email = true := by
  unfold validateLeadRequest at h
  cases hn : p.name with
  | none =>
      rw [hn] at h
      cases h
  | some n =>
      rw [hn] at h
      cases hm : p.email with
      | none =>
          rw [hm] at h
          cases h
      | some e =>
          rw [hm] at h
          dsimp only at h
          by_cases he : emailValid e = true
          · rw [if_pos he] at h
            injection h with h2
            subst h2
            exact he
          · rw [if_neg he] at h
            cases h

/-- Claim C9: GET / and GET /api/hello return the fixed literal message
objects for every prior state, leave the state unchanged, and are
idempotent. -/
theorem C9_root_and_hello_fixed (db : DB) :
    read_root db = ({ message := "Globalize.co.uk backend is running" }, db) ∧
    hello db = ({ message := "Hello from the backend API!" }, db) ∧
    read_root (read_root db).2 = read_root db ∧
    hello (hello db).2 = hello db :=
  ⟨rfl, rfl, rfl, rfl⟩

/-- Claim C7: GET /test returns a response for every import outcome, client
handle, collection listing and environment (no exception escapes), and when
the database module is unavailable the database field degrades to the
module-not-found error string. -/
theorem C7_test_never_raises (imp : DbImport) (env : Env) :
    (∃ r, test_database imp env = Except.ok r) ∧
    ∀ r, test_database DbImport.importErr env = Except.ok r →
      r.database =
        "❌ Database module not found (run enable-database first)" := by
  constructor
  · exact ⟨_, rfl⟩
  · intro r h
    simp only [test_database, Except.ok.injEq] at h
    subst h
    rfl

/-- Witness for C7 at the concrete import-error state and empty environment. -/
theorem C7_test_never_raises_witness :
    (∃ r, test_database DbImport.importErr envEmpty = Except.ok r) ∧
    ∀ r, test_database DbImport.importErr envEmpty = Except.ok r →
      r.database =
        "❌ Database module not found (run enable-database first)" :=
  C7_test_never_raises DbImport.importErr envEmpty

/-- Claim C10: when the collection listing succeeds, the collections field of
the diagnostic response is the first 10 names at most, for any number of
collections. -/
theorem C10_collections_capped (h : DbHandle) (env : Env) (cols : List String)
    (hc : h.collectionsResult = Except.ok cols) :
    ∃ r, test_database (DbImport.imported (some h)) env = Except.ok r ∧
      r.collections = cols.take 10 ∧ r.collections.length ≤ 10 := by
  obtain ⟨nm, cr⟩ := h
  simp only [DbHandle.collectionsResult] at hc
  subst hc
  exact ⟨_, rfl, rfl, List.length_take_le 10 cols⟩

/-- Witness for C10 at a twelve-collection listing. -/
theorem C10_collections_capped_witness :
    ∃ r, test_database (DbImport.imported (some handle12)) envEmpty
        = Except.ok r ∧
      r.collections =
        (["c01", "c02", "c03", "c04", "c05", "c06",
          "c07", "c08", "c09", "c10", "c11", "c12"] : List String).take 10 ∧
      r.collections.length ≤ 10 :=
  C10_collections_capped handle12 envEmpty
    (["c01", "c02", "c03", "c04", "c05", "c06",
      "c07", "c08", "c09", "c10", "c11", "c12"]) rfl

/-- Claim C1: a payload with a missing name, a missing email, or a malformed
email receives a client-error (4xx) response, the database state is
unchanged, and the persistence operation is never invoked (the side-effect
trace is empty). -/
theorem C1_invalid_payload_rejected (env : Env) (t : SmtpOutcome) (db : DB)
    (p : RawPayload)
    (hbad : p.name = none ∨ p.email = none ∨
      ∃ e, p.email = some e ∧ emailValid e = false) :
    (∃ st d, (create_lead env t db p).response = LeadResponse.clientError st d ∧
      400 ≤ st ∧ st < 500) ∧
    (create_lead env t db p).db = db ∧
    (create_lead env t db p).trace = [] := by
  have hv : validateLeadRequest p = none := by
    unfold validateLeadRequest
    rcases hbad with h | h | ⟨e, he, hbe⟩
    · rw [h]
    · rw [h]
      cases p.name <;> rfl
    · cases hn : p.name with
      | none => rfl
      | some n =>
          rw [he]
          dsimp only
          rw [if_neg (by simp [hbe])]
  have hcl : create_lead env t db p =
      { response := LeadResponse.clientError 422 ("request validation failed")
      , db := db, trace := [] } := by
    unfold create_lead
    rw [hv]
  rw [hcl]
  exact ⟨⟨422, _, rfl, by omega, by omega⟩, rfl, rfl⟩

/-- Witness for C1 at the payload with a missing name. -/
theorem C1_invalid_payload_rejected_witness :
    (∃ st d, (create_lead envEmpty tOk dbEmpty payloadNoName).response
        = LeadResponse.clientError st d ∧ 400 ≤ st ∧ st < 500) ∧
    (create_lead envEmpty tOk dbEmpty payloadNoName).db = dbEmpty ∧
    (create_lead envEmpty tOk dbEmpty payloadNoName).trace = [] :=
  C1_invalid_payload_rejected envEmpty tOk dbEmpty payloadNoName (Or.inl rfl)

/-- Claim C2: when the SMTP host, the SMTP port, or the sender address (the
SENDER_EMAIL variable falling back to SMTP_USER) is absent from the
environment, the sender returns the skip result without attempting any
connection, and a successful submission still reports ok with email_sent
false and the skip message. -/
theorem C2_smtp_unconfigured_skips (env : Env) (t : SmtpOutcome)
    (rcp nm : String)
    (habs : env.smtp_host = none ∨ env.smtp_port = none ∨
      (env.sender_email = none ∧ env.smtp_user = none)) :
    maybeSendLeadEmail env t rcp nm =
      { sent := false, message := "SMTP not configured; skipped sending" } ∧
    smtpAttempt env rcp nm = none ∧
    ∀ db p lr, validateLeadRequest p = some lr → db.insertFails = false →
      ∃ id, (create_lead env t db p).response =
        LeadResponse.ok id false ("SMTP not configured; skipped sending") := by
  have hcfg : smtpConfigured env = false := by
    rcases habs with h | h | ⟨h1, h2⟩
    · simp [smtpConfigured, pyFalsy, h]
    · simp [smtpConfigured, pyFalsy, h]
    · simp [smtpConfigured, senderEmailResolved, pyFalsy, h1, h2]
  have hm : ∀ a b : String, maybeSendLeadEmail env t a b =
      { sent := false, message := "SMTP not configured; skipped sending" } := by
    intro a b
    unfold maybeSendLeadEmail
    rw [hcfg]
    rfl
  refine ⟨hm rcp nm, ?_, ?_⟩
  · unfold smtpAttempt
    rw [hcfg]
    rfl
  · intro db p lr hvp hins
    unfold create_lead
    rw [hvp]
    unfold create_document
    rw [hins]
    dsimp only
    rw [hm]
    exact ⟨_, rfl⟩

/-- Witness for C2 at the empty environment and the example payload. -/
theorem C2_smtp_unconfigured_skips_witness :
    maybeSendLeadEmail envEmpty tOk ("jane@example.com") ("Jane Doe") =
      { sent := false, message := "SMTP not configured; skipped sending" } ∧
    smtpAttempt envEmpty ("jane@example.com") ("Jane Doe") = none ∧
    ∀ db p lr, validateLeadRequest p = some lr → db.insertFails = false →
      ∃ id, (create_lead envEmpty tOk db p).response =
        LeadResponse.ok id false ("SMTP not configured; skipped sending") :=
  C2_smtp_unconfigured_skips envEmpty tOk ("jane@example.com") ("Jane Doe")
    (Or.inl rfl)

/-- Claim C3: when SMTP is configured and the port parses, every exception
raised during the connect, authenticate, or send steps is caught and turned
into the failure result with the error text truncated to at most 200
characters, and a submission whose persistence succeeded still reports ok. -/
theorem C3_smtp_error_swallowed (env : Env) (e : String) (rcp nm : String)
    (hcfg : smtpConfigured env = true)
    (hport : ∃ pt, pyInt? (env.smtp_port.getD ("")) = some pt) :
    maybeSendLeadEmail env (Except.error e) rcp nm =
      { sent := false, message := "Email failed: " ++ pyTruncate 200 e } ∧
    (pyTruncate 200 e).length ≤ 200 ∧
    ∀ db p lr, validateLeadRequest p = some lr → db.insertFails = false →
      ∃ id, (create_lead env (Except.error e) db p).response =
        LeadResponse.ok id false ("Email failed: " ++ pyTruncate 200 e) := by
  obtain ⟨pt, hpt⟩ := hport
  have hm : ∀ a b : String, maybeSendLeadEmail env (Except.error e) a b =
      { sent := false, message := "Email failed: " ++ pyTruncate 200 e } := by
    intro a b
    unfold maybeSendLeadEmail
    rw [hcfg, hpt]
    rfl
  refine ⟨hm rcp nm, ?_, ?_⟩
  · have h1 : (pyTruncate 200 e).length = (e.toList.take 200).length := rfl
    rw [h1]
    exact List.length_take_le 200 e.toList
  · intro db p lr hvp hins
    unfold create_lead
    rw [hvp]
    unfold create_document
    rw [hins]
    dsimp only
    rw [hm]
    exact ⟨_, rfl⟩

/-- Witness for C3 at the fully configured environment and a concrete
transport error. -/
theorem C3_smtp_error_swallowed_witness :
    maybeSendLeadEmail envSmtpFull (Except.error ("boom"))
        ("jane@example.com") ("Jane Doe") =
      { sent := false
      , message := "Email failed: " ++ pyTruncate 200 ("boom") } ∧
    (pyTruncate 200 ("boom")).length ≤ 200 ∧
    ∀ db p lr, validateLeadRequest p = some lr → db.insertFails = false →
      ∃ id, (create_lead envSmtpFull (Except.error ("boom")) db p).response =
        LeadResponse.ok id false ("Email failed: " ++ pyTruncate 200 ("boom")) :=
  C3_smtp_error_swallowed envSmtpFull ("boom") ("jane@example.com")
    ("Jane Doe") (by decide) ⟨587, by decide⟩

/-- Claim C4: in every successful submission the persistence call happens
before the email attempt in the side-effect trace, the persisted record is
in the resulting database state, and that state is the same for every
transport outcome (the email attempt never reverts or blocks the record). -/
theorem C4_persist_before_email (env : Env) (t : SmtpOutcome) (db : DB)
    (p : RawPayload) (id : String) (es : Bool) (em : String)
    (hok : (create_lead env t db p).response = LeadResponse.ok id es em) :
    ∃ lr, validateLeadRequest p = some lr ∧
      (create_lead env t db p).trace =
        [Event.persistCalled ("lead"), Event.persisted ("lead") id,
         Event.emailAttempted lr.email] ∧
      ("lead", id, toLead lr) ∈ (create_lead env t db p).db.docs ∧
      ∀ t2 : SmtpOutcome,
        (create_lead env t2 db p).db = (create_lead env t db p).db := by
  cases hv : validateLeadRequest p with
  | none =>
      rw [show create_lead env t db p =
        { response := LeadResponse.clientError 422 ("request validation failed")
        , db := db, trace := [] } from by unfold create_lead; rw [hv]] at hok
      cases hok
  | some lr =>
      cases hins : db.insertFails with
      | true =>
          rw [show create_lead env t db p =
            { response := LeadResponse.clientError 400 ("database insert failed")
            , db := db, trace := [Event.persistCalled ("lead")] } from by
              unfold create_lead
              rw [hv]
              unfold create_document
              rw [hins]
              rfl] at hok
          cases hok
      | false =>
          have hred : ∀ t3 : SmtpOutcome, create_lead env t3 db p =
              { response := LeadResponse.ok ("doc-" ++ toString db.nextId)
                  (maybeSendLeadEmail env t3 lr.email lr.name).sent
                  (maybeSendLeadEmail env t3 lr.email lr.name).message
              , db := { db with
                  docs := db.docs ++ [(("lead"), "doc-" ++ toString db.nextId,
                    toLead lr)]
                , nextId := db.nextId + 1 }
              , trace := [Event.persistCalled ("lead"),
                  Event.persisted ("lead") ("doc-" ++ toString db.nextId),
                  Event.emailAttempted lr.email] } := by
            intro t3
            unfold create_lead
            rw [hv]
            unfold create_document
            rw [hins]
            rfl
          rw [hred t] at hok
          injection hok with h1 h2 h3
          subst h1
          refine ⟨lr, rfl, ?_, ?_, ?_⟩
          · rw [hred t]
          · rw [hred t]
            simp
          · intro t2
            rw [hred t, hred t2]

/-- Witness for C4 at the example payload with no SMTP configuration. -/
theorem C4_persist_before_email_witness :
    ∃ lr, validateLeadRequest payloadJane = some lr ∧
      (create_lead envEmpty tOk dbEmpty payloadJane).trace =
        [Event.persistCalled ("lead"), Event.persisted ("lead") ("doc-0"),
         Event.emailAttempted lr.email] ∧
      ("lead", "doc-0", toLead lr) ∈
        (create_lead envEmpty tOk dbEmpty payloadJane).db.docs ∧
      ∀ t2 : SmtpOutcome,
        (create_lead envEmpty t2 dbEmpty payloadJane).db =
          (create_lead envEmpty tOk dbEmpty payloadJane).db :=
  C4_persist_before_email envEmpty tOk dbEmpty payloadJane ("doc-0") false
    ("SMTP not configured; skipped sending") (by decide)

/-- Claim C5: every payload accepted by validation whose persistence succeeds
gets a response with status ok whose identifier is exactly the non-null
identifier returned by the persistence layer. -/
theorem C5_valid_payload_ok (env : Env) (t : SmtpOutcome) (db : DB)
    (p : RawPayload) (lr : LeadRequest)
    (hvp : validateLeadRequest p = some lr) (hins : db.insertFails = false) :
    ∃ id es em, (create_lead env t db p).response = LeadResponse.ok id es em ∧
      create_document ("lead") (toLead lr) db =
        Except.ok (id, (create_lead env t db p).db) := by
  refine ⟨"doc-" ++ toString db.nextId,
    (maybeSendLeadEmail env t lr.email lr.name).sent,
    (maybeSendLeadEmail env t lr.email lr.name).message, ?_, ?_⟩ <;>
  · unfold create_lead
    rw [hvp]
    unfold create_document
    rw [hins]
    rfl

/-- Witness for C5 at the example payload of the spec. -/
theorem C5_valid_payload_ok_witness :
    ∃ id es em, (create_lead envEmpty tOk dbEmpty payloadJane).response =
        LeadResponse.ok id es em ∧
      create_document ("lead")
          (toLead { name := "Jane Doe", email := "jane@example.com" })
          dbEmpty =
        Except.ok (id, (create_lead envEmpty tOk dbEmpty payloadJane).db) :=
  C5_valid_payload_ok envEmpty tOk dbEmpty payloadJane
    { name := "Jane Doe", email := "jane@example.com" } (by decide) rfl

/-- Counterexample to claim C6: the payload whose name is present but empty
and whose email is the valid jane@example.com is accepted by the handler and
persisted, so a persisted Lead can have an empty name. -/
theorem C6_counterexample_empty_name_persisted :
    (create_lead envEmpty tOk dbEmpty payloadEmptyName).response =
      LeadResponse.ok ("doc-0") false
        ("SMTP not configured; skipped sending") ∧
    (("lead", "doc-0", leadEmptyName) ∈
      (create_lead envEmpty tOk dbEmpty payloadEmptyName).db.docs) ∧
    leadEmptyName.name = "" := by
  decide

/-- Claim C6 as amended: every Lead persisted by the handler has a present
name (which may be empty) and a syntactically valid email, and this store
invariant is preserved by every submission; all other fields may be absent. -/
theorem C6_amended_persisted_lead_valid_email (env : Env) (t : SmtpOutcome)
    (db : DB) (p : RawPayload)
    (hinv : ∀ c id l, (c, id, l) ∈ db.docs → emailValid l.email = true) :
    ∀ c id l, (c, id, l) ∈ (create_lead env t db p).db.docs →
      emailValid l.email = true := by
  cases hv : validateLeadRequest p with
  | none =>
      intro c id l hmem
      rw [show create_lead env t db p =
        { response := LeadResponse.clientError 422 ("request validation failed")
        , db := db, trace := [] } from by unfold create_lead; rw [hv]] at hmem
      exact hinv c id l hmem
  | some lr =>
      cases hins : db.insertFails with
      | true =>
          intro c id l hmem
          rw [show create_lead env t db p =
            { response := LeadResponse.clientError 400 ("database insert failed")
            , db := db, trace := [Event.persistCalled ("lead")] } from by
              unfold create_lead
              rw [hv]
              unfold create_document
              rw [hins]
              rfl] at hmem
          exact hinv c id l hmem
      | false =>
          intro c id l hmem
          rw [show (create_lead env t db p).db = { db with
              docs := db.docs ++
                [(("lead"), "doc-" ++ toString db.nextId, toLead lr)]
            , nextId := db.nextId + 1 } from by
              unfold create_lead
              rw [hv]
              unfold create_document
              rw [hins]
              rfl] at hmem
          simp only [List.mem_append, List.mem_singleton] at hmem
          rcases hmem with h | h
          · exact hinv c id l h
          · injection h with hc h2
            injection h2 with hid hl
            subst hl
            exact validate_email_valid hv

/-- Witness for the amended C6 at the example payload over the empty store. -/
theorem C6_amended_witness : emailValid (toLead
    { name := "Jane Doe", email := "jane@example.com" }).email = true :=
  C6_amended_persisted_lead_valid_email envEmpty tOk dbEmpty payloadJane
    (by intro c id l h; simp [dbEmpty] at h) ("lead") ("doc-0")
    (toLead { name := "Jane Doe", email := "jane@example.com" }) (by decide)

/-- Claim C8: when SMTP is configured and the port parses, the sender builds
the fixed-template plaintext message whose subject is exactly the toolkit
subject and whose body contains the lead-magnet URL formed from FRONTEND_URL
(defaulting to http://localhost:3000) plus /lead-magnet, the session upgrades
to TLS, authenticates exactly when a password is configured, and sends to the
single recipient. -/
theorem C8_email_template (env : Env) (rcp nm : String) (pt : Nat)
    (hcfg : smtpConfigured env = true)
    (hport : pyInt? (env.smtp_port.getD ("")) = some pt) :
    (buildLeadEmail env rcp nm).subject =
      "Your Globalize Social Media Growth Toolkit" ∧
    (buildLeadEmail env rcp nm).body =
      bodyHead ++ nm ++ bodyMid ++ leadMagnetUrl env ++ bodyTail ∧
    leadMagnetUrl env =
      (env.frontend_url.getD ("http://localhost:3000")) ++ "/lead-magnet" ∧
    ∃ s, smtpAttempt env rcp nm = some s ∧
      s.starttls_called = true ∧
      s.login_call.isSome = !(pyFalsy env.smtp_password) ∧
      s.sendmail_to = [rcp] ∧
      s.sendmail_msg = buildLeadEmail env rcp nm := by
  refine ⟨rfl, rfl, rfl, ?_⟩
  have hs : smtpAttempt env rcp nm = some
      { host := env.smtp_host.getD ("")
      , port := pt
      , starttls_called := true
      , login_call :=
          if pyFalsy env.smtp_password then none
          else some (env.smtp_user, env.smtp_password.getD (""))
      , sendmail_from := (senderEmailResolved env).getD ("")
      , sendmail_to := [rcp]
      , sendmail_msg := buildLeadEmail env rcp nm } := by
    unfold smtpAttempt
    rw [hcfg, hport]
    rfl
  refine ⟨_, hs, rfl, ?_, rfl, rfl⟩
  cases hp : pyFalsy env.smtp_password <;> simp [hp]

/-- Witness for C8 at the fully configured environment. -/
theorem C8_email_template_witness :
    (buildLeadEmail envSmtpFull ("jane@example.com") ("Jane Doe")).subject =
      "Your Globalize Social Media Growth Toolkit" ∧
    (buildLeadEmail envSmtpFull ("jane@example.com") ("Jane Doe")).body =
      bodyHead ++ "Jane Doe" ++ bodyMid ++ leadMagnetUrl envSmtpFull ++
        bodyTail ∧
    leadMagnetUrl envSmtpFull =
      (envSmtpFull.frontend_url.getD ("http://localhost:3000")) ++
        "/lead-magnet" ∧
    ∃ s, smtpAttempt envSmtpFull ("jane@example.com") ("Jane Doe") = some s ∧
      s.starttls_called = true ∧
      s.login_call.isSome = !(pyFalsy envSmtpFull.smtp_password) ∧
      s.sendmail_to = ["jane@example.com"] ∧
      s.sendmail_msg = buildLeadEmail envSmtpFull ("jane@example.com")
        ("Jane Doe") :=
  C8_email_template envSmtpFull ("jane@example.com") ("Jane Doe") 587
    (by decide) (by decide)

end Globalize
